import Mathlib

/-!
# BotEmmy: the Telegram bot of `src/index.js`

A shallow embedding of `index.js`: the three API clients (`generateResponse`,
`transcribeAudio`, `analyzeImage`) and the four update handlers (`bot.start`,
`bot.on('voice')`, `bot.on('photo')`, `bot.on('text')`).

Modelling conventions.

* Every call that leaves the process (Telegram file-link resolution, the HTTP
  download, the three OpenAI posts) is answered by an `Env`, one per update. `none`
  stands for a rejected promise (network failure or a non-2xx status).
* Every such call, every `ctx.reply` and every `console.error` is recorded, in program
  order, in a list of `Effect`s. `ctx.reply` is an output of the handler: the chat
  platform is taken to accept it. `console.log` lines are not recorded.
* `ctx.session` is the session object the session middleware hands to the handler for
  the key `from.id:chat.id` of the update; its only property is `messages`, which is
  `undefined` (`none`) until a handler assigns it.
* Handlers are run one after another; an `await` is a sequencing point only.
* `BOT_INSTRUCTIONS` comes from `./instructions`, which is not part of the sources at
  hand: it is a parameter `instructions` of everything that uses it.
-/

namespace BotEmmy

/-! ## Data model -/

/-- A chat message `{ role, content }`. The role is the string the code writes. -/
structure Message where
  role : String
  content : String
deriving DecidableEq, Repr

/-- The object `ctx.session`: `messages` is `undefined` until first assigned. -/
structure Session where
  messages : Option (List Message)
deriving DecidableEq, Repr

/-- The value of `ctx.session.messages || []`: an array, even an empty one, is truthy. -/
def Session.msgs (s : Session) : List Message :=
  match s.messages with
  | some ms => ms
  | none => []

/-- The fresh session object `{}`. -/
def Session.empty : Session := ⟨none⟩

/-- The errors that travel through the `try`/`catch` blocks. -/
inductive JsError where
  /-- An error made with `new Error(message)`. -/
  | error (message : String)
  /-- The `TypeError` of reading a property of `undefined` or `null`. -/
  | typeError
  /-- The rejection of an `axios` or Telegram call. -/
  | rejected
deriving DecidableEq, Repr

/-- The `error` object of an OpenAI response body. -/
structure ApiError where
  message : String
deriving DecidableEq, Repr

/-- One entry of `choices`. `content` is `choices[i].message.content` when that is a
string, and `none` when `message` is missing or its `content` is not a string. -/
structure Choice where
  content : Option String
deriving DecidableEq, Repr

/-- The body `response.data` of a chat-completion response. -/
structure ChatData where
  choices : Option (List Choice)
  error : Option ApiError
deriving DecidableEq, Repr

/-- The body of a transcription response. -/
structure WhisperData where
  text : String
  error : Option ApiError
deriving DecidableEq, Repr

/-- The JSON body posted by `generateResponse` (lines 34-39). -/
structure ChatPayload where
  model : String
  messages : List Message
  max_tokens : Nat
  temperature : ℚ
deriving DecidableEq

/-- One entry of `ctx.message.photo`. -/
structure PhotoSize where
  file_id : String
  width : Nat
  height : Nat
deriving DecidableEq, Repr

/-- A downloaded file, byte by byte. -/
abbrev Bytes := List Nat

/-- The answers of the outside world during one update. -/
structure Env where
  /-- The call `ctx.telegram.getFileLink(fileId)`. -/
  getFileLink : String → Option String
  /-- The call `axios.get(fileLink, ...)`, giving `response.data`. -/
  httpGet : String → Option Bytes
  /-- The post to the transcription endpoint; the form holds the audio bytes and
  constants only. -/
  whisperPost : Bytes → Option WhisperData
  /-- The post of `analyzeImage`; its body holds the image bytes (as a base64 data
  URI) and constants only. -/
  visionPost : Bytes → Option ChatData
  /-- The post of `generateResponse`. -/
  chatPost : ChatPayload → Option ChatData

/-- What a handler does to the outside world. -/
inductive Effect where
  | getFileLink (fileId : String)
  | httpGet (url : String)
  | whisperPost (audio : Bytes)
  | visionPost (image : Bytes)
  | chatPost (payload : ChatPayload)
  | consoleError (heading : String) (err : JsError)
  | reply (text : String)
deriving DecidableEq

/-- The replies among a list of effects, in order. -/
def replies : List Effect → List String
  | [] => []
  | Effect.reply t :: es => t :: replies es
  | _ :: es => replies es

/-- The chat-completion payloads posted by `generateResponse`, in order. -/
def chatPosts : List Effect → List ChatPayload
  | [] => []
  | Effect.chatPost p :: es => p :: chatPosts es
  | _ :: es => chatPosts es

/-- The file ids handed to `getFileLink`, in order. -/
def resolvedFileIds : List Effect → List String
  | [] => []
  | Effect.getFileLink i :: es => i :: resolvedFileIds es
  | _ :: es => resolvedFileIds es

/-- The result of an `async` client function together with what it did. -/
structure Call (α : Type) where
  effects : List Effect
  result : Except JsError α

/-- The result of a handler: the session it leaves, what it did, and whether its
promise was rejected (an error left the handler). -/
structure Outcome where
  session : Session
  effects : List Effect
  rejected : Bool

/-! ## `String.prototype.trim` -/

/-- The code points `trim` removes: ECMAScript WhiteSpace and LineTerminator. -/
def isJsWhiteSpace (c : Char) : Bool :=
  let n := c.toNat
  n == 0x09 || n == 0x0A || n == 0x0B || n == 0x0C || n == 0x0D || n == 0x20 ||
  n == 0xA0 || n == 0x1680 || (0x2000 ≤ n && n ≤ 0x200A) || n == 0x2028 ||
  n == 0x2029 || n == 0x202F || n == 0x205F || n == 0x3000 || n == 0xFEFF

/-- The method `trim()`: white space is dropped at both ends. -/
def jsTrim (s : String) : String :=
  ⟨((s.data.dropWhile isJsWhiteSpace).reverse.dropWhile isJsWhiteSpace).reverse⟩

/-! ## The API clients -/

/-- The message thrown by the `catch` of `generateResponse` (line 58). -/
def LLM_ERROR : String := "Ошибка при обработке запроса к OpenAI API."

/-- The message thrown for a response without choices and without error (line 54). -/
def EMPTY_RESPONSE : String := "Пустой ответ от OpenAI API"

/-- The array `messages` built on lines 27-31. -/
def buildMessages (instructions prompt : String) (sessionMessages : List Message) :
    List Message :=
  [⟨"system", instructions⟩] ++ sessionMessages ++ [⟨"user", prompt⟩]

/-- The request body of lines 34-39. -/
def chatPayload (instructions prompt : String) (sessionMessages : List Message) :
    ChatPayload :=
  ⟨"gpt-4o", buildMessages instructions prompt sessionMessages, 1000, 1 / 10⟩

/-- Lines 46-55: what the `try` block does with `response.data`. -/
def readChatData (data : ChatData) : Except JsError String :=
  match data.choices with
  | some (c :: _) =>
    match c.content with
    | some text => .ok (jsTrim text)
    | none => .error .typeError
  | _ =>
    match data.error with
    | some e => .error (.error ("Ошибка API: " ++ e.message))
    | none => .error (.error EMPTY_RESPONSE)

/-- The `try` block of `generateResponse` (lines 33-55). -/
def generateResponseTry (env : Env) (payload : ChatPayload) : Except JsError String :=
  match env.chatPost payload with
  | none => .error .rejected
  | some data => readChatData data

/-- The function `generateResponse(prompt, sessionMessages)` (lines 26-60). -/
def generateResponse (instructions : String) (env : Env) (prompt : String)
    (sessionMessages : List Message) : Call String :=
  let payload := chatPayload instructions prompt sessionMessages
  match generateResponseTry env payload with
  | .ok text => ⟨[.chatPost payload], .ok text⟩
  | .error e =>
    ⟨[.chatPost payload, .consoleError "Ошибка при взаимодействии с OpenAI API:" e],
      .error (.error LLM_ERROR)⟩

/-- The message thrown by the `catch` of `transcribeAudio` (line 90). -/
def WHISPER_ERROR : String := "Ошибка при распознавании аудио."

/-- The function `transcribeAudio(fileLink)` (lines 62-92). -/
def transcribeAudio (env : Env) (fileLink : String) : Call String :=
  match env.httpGet fileLink with
  | none =>
    ⟨[.httpGet fileLink, .consoleError "Ошибка при распознавании аудио:" .rejected],
      .error (.error WHISPER_ERROR)⟩
  | some buffer =>
    match env.whisperPost buffer with
    | none =>
      ⟨[.httpGet fileLink, .whisperPost buffer,
          .consoleError "Ошибка при распознавании аудио:" .rejected],
        .error (.error WHISPER_ERROR)⟩
    | some data =>
      match data.error with
      | some e =>
        ⟨[.httpGet fileLink, .whisperPost buffer,
            .consoleError "Ошибка при распознавании аудио:" (.error e.message)],
          .error (.error WHISPER_ERROR)⟩
      | none => ⟨[.httpGet fileLink, .whisperPost buffer], .ok data.text⟩

/-- The message thrown by the `catch` of `analyzeImage` (line 132). -/
def VISION_ERROR : String := "Ошибка при анализе изображения."

/-- Lines 120-129: what the `try` block of `analyzeImage` does with the response. -/
def readVisionData (data : ChatData) : Except JsError String :=
  match data.choices with
  | some (c :: _) =>
    match c.content with
    | some text => .ok (jsTrim text)
    | none => .error .typeError
  | _ =>
    match data.error with
    | some e => .error (.error e.message)
    | none => .error (.error "Пустой ответ от OpenAI Vision API")

/-- The function `analyzeImage(fileLink)` (lines 94-134). -/
def analyzeImage (env : Env) (fileLink : String) : Call String :=
  match env.httpGet fileLink with
  | none =>
    ⟨[.httpGet fileLink, .consoleError "Ошибка при анализе изображения:" .rejected],
      .error (.error VISION_ERROR)⟩
  | some buffer =>
    match env.visionPost buffer with
    | none =>
      ⟨[.httpGet fileLink, .visionPost buffer,
          .consoleError "Ошибка при анализе изображения:" .rejected],
        .error (.error VISION_ERROR)⟩
    | some data =>
      match readVisionData data with
      | .error e =>
        ⟨[.httpGet fileLink, .visionPost buffer,
            .consoleError "Ошибка при анализе изображения:" e],
          .error (.error VISION_ERROR)⟩
      | .ok text => ⟨[.httpGet fileLink, .visionPost buffer], .ok text⟩

/-! ## The update handlers -/

/-- The reply of `bot.start` (line 138). -/
def WELCOME : String := "Добро пожаловать! Начните общение или введите команду."

/-- The reply of the `catch` of the voice handler (line 159). -/
def VOICE_FAILURE : String := "Произошла ошибка при распознавании аудио."

/-- The reply of the `catch` of the photo handler (line 183). -/
def PHOTO_FAILURE : String := "Произошла ошибка при анализе изображения."

/-- The reply of the `catch` of the text handler (line 201). -/
def TEXT_FAILURE : String := "Произошла ошибка при обработке вашего запроса."

/-- The statements `ctx.session.messages = ctx.session.messages || [];
ctx.session.messages.push(m)`. -/
def Session.push (s : Session) (m : Message) : Session :=
  ⟨some (s.msgs ++ [m])⟩

/-- The handler `bot.start` (lines 136-139). -/
def startHandler (s : Session) : Outcome :=
  ⟨s, [.reply WELCOME], false⟩

/-- Lines 145-160: the `try`/`catch` of the voice handler, once the link is known. -/
def voiceTry (instructions : String) (env : Env) (s : Session) (fileLink : String) :
    Outcome :=
  let t := transcribeAudio env fileLink
  match t.result with
  | .error e =>
    ⟨s, t.effects ++ [.consoleError "Ошибка при распознавании аудио:" e,
      .reply VOICE_FAILURE], false⟩
  | .ok text =>
    let s1 := s.push ⟨"user", text⟩
    let g := generateResponse instructions env text s1.msgs
    match g.result with
    | .error e =>
      ⟨s1, t.effects ++ g.effects ++ [.consoleError "Ошибка при распознавании аудио:" e,
        .reply VOICE_FAILURE], false⟩
    | .ok assistantResponse =>
      ⟨s1.push ⟨"assistant", assistantResponse⟩,
        t.effects ++ g.effects ++ [.reply assistantResponse], false⟩

/-- The handler `bot.on('voice')` (lines 141-161); `fileId` is
`ctx.message.voice.file_id`. The call of line 143 stands before the `try`. -/
def voiceHandler (instructions : String) (env : Env) (s : Session) (fileId : String) :
    Outcome :=
  match env.getFileLink fileId with
  | none => ⟨s, [.getFileLink fileId], true⟩
  | some fileLink =>
    let o := voiceTry instructions env s fileLink
    ⟨o.session, .getFileLink fileId :: o.effects, o.rejected⟩

/-- Lines 167-184: the `try`/`catch` of the photo handler, once the link is known. -/
def photoTry (instructions : String) (env : Env) (s : Session) (fileLink : String) :
    Outcome :=
  let a := analyzeImage env fileLink
  match a.result with
  | .error e =>
    ⟨s, a.effects ++ [.consoleError "Ошибка при анализе изображения:" e,
      .reply PHOTO_FAILURE], false⟩
  | .ok description =>
    let s1 := s.push ⟨"user", "Пользователь отправил изображение. Описание: " ++ description⟩
    let g := generateResponse instructions env ("Опиши это изображение: " ++ description)
      s1.msgs
    match g.result with
    | .error e =>
      ⟨s1, a.effects ++ g.effects ++ [.consoleError "Ошибка при анализе изображения:" e,
        .reply PHOTO_FAILURE], false⟩
    | .ok assistantResponse =>
      ⟨s1.push ⟨"assistant", assistantResponse⟩,
        a.effects ++ g.effects ++ [.reply assistantResponse], false⟩

/-- The handler `bot.on('photo')` (lines 163-185); `photo` is `ctx.message.photo`.
Line 164 reads `photo[photo.length - 1].file_id`: for the empty array the index is
`-1`, the element is `undefined`, and reading `file_id` throws before the `try`. -/
def photoHandler (instructions : String) (env : Env) (s : Session)
    (photo : List PhotoSize) : Outcome :=
  match photo[photo.length - 1]? with
  | none => ⟨s, [], true⟩
  | some last =>
    match env.getFileLink last.file_id with
    | none => ⟨s, [.getFileLink last.file_id], true⟩
    | some fileLink =>
      let o := photoTry instructions env s fileLink
      ⟨o.session, .getFileLink last.file_id :: o.effects, o.rejected⟩

/-- The handler `bot.on('text')` (lines 187-203); `userMessage` is
`ctx.message.text`. The user message is pushed before the `try`. -/
def textHandler (instructions : String) (env : Env) (s : Session) (userMessage : String) :
    Outcome :=
  let s1 := s.push ⟨"user", userMessage⟩
  let g := generateResponse instructions env userMessage s1.msgs
  match g.result with
  | .error e =>
    ⟨s1, g.effects ++ [.consoleError "Ошибка при обработке запроса к OpenAI:" e,
      .reply TEXT_FAILURE], false⟩
  | .ok assistantResponse =>
    ⟨s1.push ⟨"assistant", assistantResponse⟩, g.effects ++ [.reply assistantResponse], false⟩

/-- The updates the bot has a handler for. -/
inductive Update where
  | start
  | voice (file_id : String)
  | photo (photo : List PhotoSize)
  | text (text : String)

/-- The dispatch of one update to its handler. -/
def handle (instructions : String) (env : Env) (s : Session) : Update → Outcome
  | .start => startHandler s
  | .voice fileId => voiceHandler instructions env s fileId
  | .photo photo => photoHandler instructions env s photo
  | .text t => textHandler instructions env s t

/-- The session after a sequence of updates handled one after another, each with the
answers the outside world gives during it. -/
def run (instructions : String) : Session → List (Update × Env) → Session
  | s, [] => s
  | s, (u, env) :: rest => run instructions (handle instructions env s u).session rest

/-! ## Concrete environments -/

/-- An outside world in which every call is rejected. -/
def deadEnv : Env :=
  ⟨fun _ => none, fun _ => none, fun _ => none, fun _ => none, fun _ => none⟩

/-- An outside world whose chat-completion endpoint answers every request with `data`;
every other call is rejected. -/
def chatEnv (data : ChatData) : Env :=
  ⟨fun _ => none, fun _ => none, fun _ => none, fun _ => none, fun _ => some data⟩

/-- An outside world in which every file id resolves to `link`, every download gives
`bytes`, the transcription endpoint answers `w` and both chat-completion posts answer
`data`. -/
def liveEnv (link : String) (bytes : Bytes) (w : Option WhisperData) (data : Option ChatData) :
    Env :=
  ⟨fun _ => some link, fun _ => some bytes, fun _ => w, fun _ => data, fun _ => data⟩

/-! ## Rounds of text updates -/

/-- A sequence of text updates, each with the answers of the outside world during it,
as a sequence of updates. -/
def textUpdates (evs : List (String × Env)) : List (Update × Env) :=
  evs.map (fun te => (Update.text te.1, te.2))

/-- Whether, in a sequence of text updates handled one after another from session `s`,
every call of `generateResponse` (line 195) returns. -/
def llmCallsSucceed (instructions : String) : Session → List (String × Env) → Bool
  | _, [] => true
  | s, (t, env) :: rest =>
    (generateResponse instructions env t (s.push ⟨"user", t⟩).msgs).result.isOk &&
      llmCallsSucceed instructions (textHandler instructions env s t).session rest

/-- The message list made of one user message followed by one assistant message per
pair `(user text, assistant text)`. -/
def rounds : List (String × String) → List Message
  | [] => []
  | (t, a) :: rest => ⟨"user", t⟩ :: ⟨"assistant", a⟩ :: rounds rest

/-- A stored role is admissible when it is `user` or `assistant`. -/
def storedRole (m : Message) : Prop :=
  m.role = "user" ∨ m.role = "assistant"

/-! ## Effects of the clients -/

theorem replies_append (xs ys : List Effect) :
    replies (xs ++ ys) = replies xs ++ replies ys := by
  induction xs with
  | nil => rfl
  | cons x xs ih => cases x <;> simp [replies, ih]

theorem chatPosts_append (xs ys : List Effect) :
    chatPosts (xs ++ ys) = chatPosts xs ++ chatPosts ys := by
  induction xs with
  | nil => rfl
  | cons x xs ih => cases x <;> simp [chatPosts, ih]

theorem generateResponse_chatPosts (instructions : String) (env : Env) (prompt : String)
    (h : List Message) :
    chatPosts (generateResponse instructions env prompt h).effects =
      [chatPayload instructions prompt h] := by
  unfold generateResponse
  cases hg : generateResponseTry env (chatPayload instructions prompt h) <;>
    simp [hg, chatPosts]

theorem generateResponse_replies (instructions : String) (env : Env) (prompt : String)
    (h : List Message) :
    replies (generateResponse instructions env prompt h).effects = [] := by
  unfold generateResponse
  cases hg : generateResponseTry env (chatPayload instructions prompt h) <;>
    simp [hg, replies]

theorem readChatData_no_choices (data : ChatData)
    (hch : data.choices = none ∨ data.choices = some []) :
    readChatData data =
      match data.error with
      | some e => .error (.error ("Ошибка API: " ++ e.message))
      | none => .error (.error EMPTY_RESPONSE) := by
  unfold readChatData
  rcases hch with h | h <;> rw [h]

theorem generateResponse_api_error (instructions : String) (env : Env)
    (prompt : String) (h : List Message) (data : ChatData) (e : ApiError)
    (hpost : env.chatPost (chatPayload instructions prompt h) = some data)
    (herr : data.error = some e)
    (hch : data.choices = none ∨ data.choices = some []) :
    (generateResponse instructions env prompt h).result = .error (.error LLM_ERROR) := by
  have ht : generateResponseTry env (chatPayload instructions prompt h) =
      .error (.error ("Ошибка API: " ++ e.message)) := by
    simp [generateResponseTry, hpost, readChatData_no_choices data hch, herr]
  simp [generateResponse, ht]

/-! ## The request payload -/

/-- C9: for every prompt `p` and history `h`, the payload `generateResponse` posts has
as `messages` the system message, then every message of `h` in order, then the new user
message `{user, p}`: length `|h| + 2`, first element the system instruction, last
element the new user message. This holds whatever the endpoint answers. -/
theorem generateResponse_payload_messages (instructions : String) (env : Env) (p : String)
    (h : List Message) :
    chatPosts (generateResponse instructions env p h).effects =
        [chatPayload instructions p h] ∧
      (chatPayload instructions p h).messages =
        ⟨"system", instructions⟩ :: (h ++ [⟨"user", p⟩]) ∧
      (chatPayload instructions p h).messages.length = h.length + 2 ∧
      (chatPayload instructions p h).messages.head? = some ⟨"system", instructions⟩ ∧
      (chatPayload instructions p h).messages.getLast? = some ⟨"user", p⟩ := by
  refine ⟨generateResponse_chatPosts instructions env p h, ?_, ?_, ?_, ?_⟩
  · simp [chatPayload, buildMessages]
  · simp [chatPayload, buildMessages]
  · simp [chatPayload, buildMessages]
  · exact List.getLast?_concat ([Message.mk "system" instructions] ++ h)

/-! ## Reading the response -/

/-- C2, as stated, fails: a response body with an `error` object and a non-empty
`choices` list makes `generateResponse` return the first choice's text. -/
theorem generateResponse_error_and_choices_returns :
    (⟨some [⟨some " hi "⟩], some ⟨"quota"⟩⟩ : ChatData).error = some ⟨"quota"⟩ ∧
      (generateResponse "sys" (chatEnv ⟨some [⟨some " hi "⟩], some ⟨"quota"⟩⟩) "p" []).result
        = .ok "hi" := by
  refine ⟨rfl, ?_⟩
  rfl

/-- C2, amended: for every response body that carries an `error` object and whose
`choices` list is absent or empty, `generateResponse` throws the generic
language-model error and returns no text. -/
theorem generateResponse_error_without_choices (instructions : String) (env : Env)
    (prompt : String) (h : List Message) (data : ChatData) (e : ApiError)
    (hpost : env.chatPost (chatPayload instructions prompt h) = some data)
    (herr : data.error = some e)
    (hch : data.choices = none ∨ data.choices = some []) :
    (generateResponse instructions env prompt h).result
        = .error (.error "Ошибка при обработке запроса к OpenAI API.") ∧
      ∀ text, (generateResponse instructions env prompt h).result ≠ .ok text := by
  have hr := generateResponse_api_error instructions env prompt h data e hpost herr hch
  exact ⟨hr, fun text hok => by rw [hr] at hok; cases hok⟩

theorem generateResponse_error_without_choices_witness :
    (generateResponse "sys" (chatEnv ⟨some [], some ⟨"quota"⟩⟩) "p" []).result
        = .error (.error "Ошибка при обработке запроса к OpenAI API.") ∧
      ∀ text, (generateResponse "sys" (chatEnv ⟨some [], some ⟨"quota"⟩⟩) "p" []).result
        ≠ .ok text :=
  generateResponse_error_without_choices "sys" (chatEnv ⟨some [], some ⟨"quota"⟩⟩) "p" []
    ⟨some [], some ⟨"quota"⟩⟩ ⟨"quota"⟩ rfl rfl (Or.inr rfl)

/-- C6: for every response body whose `choices` list is empty and which carries no
`error` object, the `try` block of `generateResponse` throws the empty-result error
(line 54); the `catch` logs it and `generateResponse` fails with the error it re-raises
for every failure. No text, empty or not, is returned. -/
theorem generateResponse_empty_choices_fails (instructions : String) (env : Env)
    (prompt : String) (h : List Message) (data : ChatData)
    (hpost : env.chatPost (chatPayload instructions prompt h) = some data)
    (hch : data.choices = some []) (herr : data.error = none) :
    generateResponseTry env (chatPayload instructions prompt h)
        = .error (.error "Пустой ответ от OpenAI API") ∧
      (generateResponse instructions env prompt h).effects =
        [.chatPost (chatPayload instructions prompt h),
          .consoleError "Ошибка при взаимодействии с OpenAI API:"
            (.error "Пустой ответ от OpenAI API")] ∧
      (generateResponse instructions env prompt h).result
        = .error (.error "Ошибка при обработке запроса к OpenAI API.") ∧
      ∀ text, (generateResponse instructions env prompt h).result ≠ .ok text := by
  have ht : generateResponseTry env (chatPayload instructions prompt h) =
      .error (.error "Пустой ответ от OpenAI API") := by
    simp [generateResponseTry, hpost, readChatData_no_choices data (Or.inr hch), herr,
      EMPTY_RESPONSE]
  have hr : (generateResponse instructions env prompt h).result =
      .error (.error "Ошибка при обработке запроса к OpenAI API.") := by
    simp [generateResponse, ht, LLM_ERROR]
  refine ⟨ht, ?_, hr, fun text hok => by rw [hr] at hok; cases hok⟩
  simp [generateResponse, ht]

theorem generateResponse_empty_choices_fails_witness :
    (generateResponse "sys" (chatEnv ⟨some [], none⟩) "p" []).result
        = .error (.error "Ошибка при обработке запроса к OpenAI API.") :=
  (generateResponse_empty_choices_fails "sys" (chatEnv ⟨some [], none⟩) "p" []
    ⟨some [], none⟩ rfl rfl rfl).2.2.1

/-! ## The text handler -/

theorem Session.msgs_push (s : Session) (m : Message) : (s.push m).msgs = s.msgs ++ [m] :=
  rfl

theorem textHandler_chatPosts (instructions : String) (env : Env) (s : Session)
    (t : String) :
    chatPosts (textHandler instructions env s t).effects =
      [chatPayload instructions t (s.msgs ++ [⟨"user", t⟩])] := by
  have hg := generateResponse_chatPosts instructions env t (s.msgs ++ [⟨"user", t⟩])
  cases hr : (generateResponse instructions env t (s.msgs ++ [⟨"user", t⟩])).result <;>
    simp [textHandler, Session.msgs_push, hr, chatPosts_append, hg, chatPosts]

theorem textHandler_failure (instructions : String) (env : Env) (s : Session) (t : String)
    (e : JsError)
    (he : (generateResponse instructions env t (s.msgs ++ [⟨"user", t⟩])).result = .error e) :
    replies (textHandler instructions env s t).effects = [TEXT_FAILURE] ∧
      (textHandler instructions env s t).session.msgs = s.msgs ++ [⟨"user", t⟩] ∧
      (textHandler instructions env s t).rejected = false := by
  have hg := generateResponse_replies instructions env t (s.msgs ++ [⟨"user", t⟩])
  simp [textHandler, Session.msgs_push, he, replies_append, hg, replies]

theorem textHandler_success (instructions : String) (env : Env) (s : Session) (t : String)
    (a : String)
    (ha : (generateResponse instructions env t (s.msgs ++ [⟨"user", t⟩])).result = .ok a) :
    replies (textHandler instructions env s t).effects = [a] ∧
      (textHandler instructions env s t).session.msgs =
        s.msgs ++ [⟨"user", t⟩, ⟨"assistant", a⟩] ∧
      (textHandler instructions env s t).rejected = false := by
  have hg := generateResponse_replies instructions env t (s.msgs ++ [⟨"user", t⟩])
  simp [textHandler, Session.msgs_push, ha, replies_append, hg, replies]

/-- C1, as stated, fails: for the text "Hello" arriving at the empty session, the
session at request time is `[{user, "Hello"}]`, and the messages posted are the system
instruction followed by the user message twice, not once. -/
theorem textHandler_hello_posts_three_messages :
    (Session.empty.push ⟨"user", "Hello"⟩).msgs = [⟨"user", "Hello"⟩] ∧
      (chatPosts (textHandler "sys" (chatEnv ⟨some [⟨some "Hi there!"⟩], none⟩)
          Session.empty "Hello").effects).map (fun p => p.messages) =
        [[⟨"system", "sys"⟩, ⟨"user", "Hello"⟩, ⟨"user", "Hello"⟩]] ∧
      (chatPosts (textHandler "sys" (chatEnv ⟨some [⟨some "Hi there!"⟩], none⟩)
          Session.empty "Hello").effects).map (fun p => p.messages) ≠
        [[⟨"system", "sys"⟩, ⟨"user", "Hello"⟩]] := by
  refine ⟨rfl, rfl, ?_⟩
  rw [textHandler_chatPosts]
  simp [chatPayload, buildMessages, Session.msgs, Session.empty]

/-- C1, amended: for every text event with text `t` that arrives at an empty session,
the session at request time is `[{user, t}]` and the text handler makes
`generateResponse` post exactly one request, whose messages are the system
instruction, that session, and the prompt `{user, t}`: three messages, the user text
appearing twice. -/
theorem textHandler_request_on_empty_session (instructions : String) (env : Env)
    (s : Session) (t : String) (hs : s.msgs = []) :
    (s.push ⟨"user", t⟩).msgs = [⟨"user", t⟩] ∧
      (chatPosts (textHandler instructions env s t).effects).map (fun p => p.messages) =
        [[⟨"system", instructions⟩, ⟨"user", t⟩, ⟨"user", t⟩]] := by
  rw [textHandler_chatPosts, Session.msgs_push, hs]
  simp [chatPayload, buildMessages]

theorem textHandler_request_on_empty_session_witness :
    (Session.empty.push ⟨"user", "Hello"⟩).msgs = [⟨"user", "Hello"⟩] ∧
      (chatPosts (textHandler "sys" deadEnv Session.empty "Hello").effects).map
          (fun p => p.messages) =
        [[⟨"system", "sys"⟩, ⟨"user", "Hello"⟩, ⟨"user", "Hello"⟩]] :=
  textHandler_request_on_empty_session "sys" deadEnv Session.empty "Hello" rfl

/-- C7: for every text event whose chat-completion response carries an `error` object
with a message and no choices, the chat receives the fixed failure text exactly once
(it is the only reply), no assistant message is appended (the session after the event
is the session before it plus the user's message), and the handler completes. -/
theorem textHandler_api_error_replies_failure (instructions : String) (env : Env)
    (s : Session) (t : String) (data : ChatData) (e : ApiError)
    (hpost : ∀ p ∈ chatPosts (textHandler instructions env s t).effects,
      env.chatPost p = some data)
    (herr : data.error = some e)
    (hch : data.choices = none ∨ data.choices = some []) :
    replies (textHandler instructions env s t).effects =
        ["Произошла ошибка при обработке вашего запроса."] ∧
      (textHandler instructions env s t).session.msgs = s.msgs ++ [⟨"user", t⟩] ∧
      (textHandler instructions env s t).rejected = false := by
  have hp : env.chatPost (chatPayload instructions t (s.msgs ++ [⟨"user", t⟩])) = some data :=
    hpost _ (by rw [textHandler_chatPosts]; exact List.mem_singleton.mpr rfl)
  exact textHandler_failure instructions env s t _
    (generateResponse_api_error instructions env t _ data e hp herr hch)

theorem textHandler_api_error_replies_failure_witness :
    replies (textHandler "sys" (chatEnv ⟨none, some ⟨"quota"⟩⟩) Session.empty "Hello").effects
        = ["Произошла ошибка при обработке вашего запроса."] ∧
      (textHandler "sys" (chatEnv ⟨none, some ⟨"quota"⟩⟩) Session.empty "Hello").session.msgs
        = Session.empty.msgs ++ [⟨"user", "Hello"⟩] ∧
      (textHandler "sys" (chatEnv ⟨none, some ⟨"quota"⟩⟩) Session.empty "Hello").rejected
        = false :=
  textHandler_api_error_replies_failure "sys" (chatEnv ⟨none, some ⟨"quota"⟩⟩) Session.empty
    "Hello" ⟨none, some ⟨"quota"⟩⟩ ⟨"quota"⟩ (fun _ _ => rfl) rfl (Or.inl rfl)

theorem rounds_length (ps : List (String × String)) : (rounds ps).length = 2 * ps.length := by
  induction ps with
  | nil => rfl
  | cons p ps ih =>
    obtain ⟨t, a⟩ := p
    simp [rounds, ih]
    omega

theorem run_text_rounds (instructions : String) (evs : List (String × Env)) :
    ∀ s : Session, llmCallsSucceed instructions s evs = true →
      ∃ answers : List String, answers.length = evs.length ∧
        (run instructions s (textUpdates evs)).msgs =
          s.msgs ++ rounds (List.zip (evs.map Prod.fst) answers) := by
  induction evs with
  | nil =>
    intro s _
    exact ⟨[], rfl, by simp [textUpdates, run, rounds]⟩
  | cons ev rest ih =>
    intro s hok
    obtain ⟨t, env⟩ := ev
    simp only [llmCallsSucceed, Bool.and_eq_true, Session.msgs_push] at hok
    obtain ⟨h1, h2⟩ := hok
    cases hr : (generateResponse instructions env t (s.msgs ++ [⟨"user", t⟩])).result with
    | error e => rw [hr] at h1; cases h1
    | ok a =>
      have hsucc := textHandler_success instructions env s t a hr
      obtain ⟨answers, hlen, hrun⟩ := ih _ h2
      refine ⟨a :: answers, by simp [hlen], ?_⟩
      have hstep : run instructions s (textUpdates ((t, env) :: rest)) =
          run instructions (textHandler instructions env s t).session (textUpdates rest) := rfl
      rw [hstep, hrun, hsucc.2.1]
      simp [rounds, List.zip]

/-- C4: for every `N` and every sequence of `N` text events handled one after another
from an empty session, with every LLM call succeeding, the session's message list has
length `2 * N` after the last event and consists of one user message followed by one
assistant message per round, the user messages being the texts of the events in
order. -/
theorem text_rounds_session_length (instructions : String) (evs : List (String × Env))
    (s : Session) (hs : s.msgs = [])
    (hok : llmCallsSucceed instructions s evs = true) :
    (run instructions s (textUpdates evs)).msgs.length = 2 * evs.length ∧
      ∃ answers : List String, answers.length = evs.length ∧
        (run instructions s (textUpdates evs)).msgs =
          rounds (List.zip (evs.map Prod.fst) answers) := by
  obtain ⟨answers, hlen, hrun⟩ := run_text_rounds instructions evs s hok
  rw [hs, List.nil_append] at hrun
  refine ⟨?_, answers, hlen, hrun⟩
  rw [hrun, rounds_length, List.length_zip, List.length_map, hlen, Nat.min_self]

theorem text_rounds_session_length_witness :
    (run "sys" Session.empty (textUpdates
        [("Hello", chatEnv ⟨some [⟨some "Hi there!"⟩], none⟩),
          ("Bye", chatEnv ⟨some [⟨some "See you"⟩], none⟩)])).msgs.length = 2 * 2 :=
  (text_rounds_session_length "sys"
    [("Hello", chatEnv ⟨some [⟨some "Hi there!"⟩], none⟩),
      ("Bye", chatEnv ⟨some [⟨some "See you"⟩], none⟩)] Session.empty rfl rfl).1

/-! ## The voice handler -/

theorem transcribeAudio_replies (env : Env) (link : String) :
    replies (transcribeAudio env link).effects = [] ∧
      chatPosts (transcribeAudio env link).effects = [] := by
  unfold transcribeAudio
  cases h1 : env.httpGet link with
  | none => simp [replies, chatPosts]
  | some buffer =>
    cases h2 : env.whisperPost buffer with
    | none => simp [h2, replies, chatPosts]
    | some data =>
      cases h3 : data.error <;> simp [h2, h3, replies, chatPosts]

theorem getLast?_cons_append_two (x : Effect) (xs : List Effect) (a b : Effect) :
    (x :: (xs ++ [a, b])).getLast? = some b := by
  have h : x :: (xs ++ [a, b]) = (x :: xs ++ [a]) ++ [b] := by simp
  rw [h]
  exact List.getLast?_concat _

theorem voiceHandler_transcribe_error (instructions : String) (env : Env) (s : Session)
    (fileId link : String) (hlink : env.getFileLink fileId = some link) (e : JsError)
    (he : (transcribeAudio env link).result = .error e) :
    voiceHandler instructions env s fileId =
      ⟨s, .getFileLink fileId :: ((transcribeAudio env link).effects ++
        [.consoleError "Ошибка при распознавании аудио:" e, .reply VOICE_FAILURE]), false⟩ := by
  simp [voiceHandler, hlink, voiceTry, he]

theorem voiceHandler_llm_error (instructions : String) (env : Env) (s : Session)
    (fileId link : String) (hlink : env.getFileLink fileId = some link) (text : String)
    (hok : (transcribeAudio env link).result = .ok text) (e : JsError)
    (he : (generateResponse instructions env text (s.msgs ++ [⟨"user", text⟩])).result
      = .error e) :
    voiceHandler instructions env s fileId =
      ⟨s.push ⟨"user", text⟩, .getFileLink fileId :: (((transcribeAudio env link).effects ++
        (generateResponse instructions env text (s.msgs ++ [⟨"user", text⟩])).effects) ++
        [.consoleError "Ошибка при распознавании аудио:" e, .reply VOICE_FAILURE]), false⟩ := by
  simp [voiceHandler, hlink, voiceTry, hok, Session.msgs_push, he]

/-- C3, as stated, fails: when the file link of the voice attachment cannot be
resolved, the handler sends nothing to the chat; the rejection leaves the handler. -/
theorem voiceHandler_unresolved_link_sends_nothing :
    deadEnv.getFileLink "voice-1" = none ∧
      replies (voiceHandler "sys" deadEnv Session.empty "voice-1").effects = [] ∧
      (voiceHandler "sys" deadEnv Session.empty "voice-1").rejected = true := by
  refine ⟨rfl, rfl, rfl⟩

/-- C3, amended: for every voice event whose file link resolves, if transcription or
the LLM call fails, the handler sends the fixed error text to the chat as its only
reply and last action, and completes; no message is appended for the step that failed:
after a failed transcription the session is untouched and no chat-completion request
is made, and after a failed LLM call the session holds the transcript as a user
message and no assistant message. -/
theorem voiceHandler_failure_after_link (instructions : String) (env : Env) (s : Session)
    (fileId link : String) (hlink : env.getFileLink fileId = some link) :
    ((∃ e, (transcribeAudio env link).result = .error e) →
        replies (voiceHandler instructions env s fileId).effects =
            ["Произошла ошибка при распознавании аудио."] ∧
          (voiceHandler instructions env s fileId).effects.getLast? =
            some (.reply "Произошла ошибка при распознавании аудио.") ∧
          (voiceHandler instructions env s fileId).session = s ∧
          chatPosts (voiceHandler instructions env s fileId).effects = [] ∧
          (voiceHandler instructions env s fileId).rejected = false) ∧
      (∀ text, (transcribeAudio env link).result = .ok text →
        (∃ e, (generateResponse instructions env text (s.msgs ++ [⟨"user", text⟩])).result
          = .error e) →
        replies (voiceHandler instructions env s fileId).effects =
            ["Произошла ошибка при распознавании аудио."] ∧
          (voiceHandler instructions env s fileId).effects.getLast? =
            some (.reply "Произошла ошибка при распознавании аудио.") ∧
          (voiceHandler instructions env s fileId).session.msgs =
            s.msgs ++ [⟨"user", text⟩] ∧
          (voiceHandler instructions env s fileId).rejected = false) := by
  obtain ⟨htr, htc⟩ := transcribeAudio_replies env link
  constructor
  · rintro ⟨e, he⟩
    rw [voiceHandler_transcribe_error instructions env s fileId link hlink e he]
    refine ⟨?_, getLast?_cons_append_two _ _ _ _, rfl, ?_, rfl⟩
    · simp [replies, replies_append, htr, VOICE_FAILURE]
    · simp [chatPosts, chatPosts_append, htc]
  · rintro text hok ⟨e, he⟩
    have hgr := generateResponse_replies instructions env text (s.msgs ++ [⟨"user", text⟩])
    rw [voiceHandler_llm_error instructions env s fileId link hlink text hok e he]
    refine ⟨?_, getLast?_cons_append_two _ _ _ _, rfl, rfl⟩
    simp [replies, replies_append, htr, hgr, VOICE_FAILURE]

theorem voiceHandler_failure_after_link_witness :
    (replies (voiceHandler "sys" (liveEnv "link" [1, 2] none none) Session.empty "v").effects =
        ["Произошла ошибка при распознавании аудио."] ∧
      (voiceHandler "sys" (liveEnv "link" [1, 2] none none) Session.empty "v").session =
        Session.empty) ∧
    (replies (voiceHandler "sys" (liveEnv "link" [1, 2] (some ⟨"hey", none⟩) none)
        Session.empty "v").effects = ["Произошла ошибка при распознавании аудио."] ∧
      (voiceHandler "sys" (liveEnv "link" [1, 2] (some ⟨"hey", none⟩) none)
        Session.empty "v").session.msgs = Session.empty.msgs ++ [⟨"user", "hey"⟩]) :=
  ⟨⟨((voiceHandler_failure_after_link "sys" (liveEnv "link" [1, 2] none none)
        Session.empty "v" "link" rfl).1 ⟨_, rfl⟩).1,
      ((voiceHandler_failure_after_link "sys" (liveEnv "link" [1, 2] none none)
        Session.empty "v" "link" rfl).1 ⟨_, rfl⟩).2.2.1⟩,
    ⟨((voiceHandler_failure_after_link "sys"
        (liveEnv "link" [1, 2] (some ⟨"hey", none⟩) none) Session.empty "v" "link" rfl).2
        "hey" rfl ⟨_, rfl⟩).1,
      ((voiceHandler_failure_after_link "sys"
        (liveEnv "link" [1, 2] (some ⟨"hey", none⟩) none) Session.empty "v" "link" rfl).2
        "hey" rfl ⟨_, rfl⟩).2.2.1⟩⟩

/-! ## The photo handler -/

theorem resolvedFileIds_append (xs ys : List Effect) :
    resolvedFileIds (xs ++ ys) = resolvedFileIds xs ++ resolvedFileIds ys := by
  induction xs with
  | nil => rfl
  | cons x xs ih => cases x <;> simp [resolvedFileIds, ih]

theorem generateResponse_resolvedFileIds (instructions : String) (env : Env)
    (prompt : String) (h : List Message) :
    resolvedFileIds (generateResponse instructions env prompt h).effects = [] := by
  unfold generateResponse
  cases hg : generateResponseTry env (chatPayload instructions prompt h) <;>
    simp [hg, resolvedFileIds]

theorem analyzeImage_resolvedFileIds (env : Env) (link : String) :
    resolvedFileIds (analyzeImage env link).effects = [] := by
  unfold analyzeImage
  cases h1 : env.httpGet link with
  | none => simp [resolvedFileIds]
  | some buffer =>
    cases h2 : env.visionPost buffer with
    | none => simp [h2, resolvedFileIds]
    | some data =>
      cases h3 : readVisionData data <;> simp [h2, h3, resolvedFileIds]

theorem photoTry_resolvedFileIds (instructions : String) (env : Env) (s : Session)
    (link : String) :
    resolvedFileIds (photoTry instructions env s link).effects = [] := by
  unfold photoTry
  cases ha : (analyzeImage env link).result with
  | error e =>
    simp [ha, resolvedFileIds_append, analyzeImage_resolvedFileIds, resolvedFileIds]
  | ok description =>
    cases hg : (generateResponse instructions env ("Опиши это изображение: " ++ description)
        (s.push ⟨"user", "Пользователь отправил изображение. Описание: " ++ description⟩).msgs).result <;>
      simp [ha, hg, resolvedFileIds_append, analyzeImage_resolvedFileIds,
        generateResponse_resolvedFileIds, resolvedFileIds]

theorem getElem?_length_sub_one (photo : List PhotoSize) (h : photo ≠ []) :
    photo[photo.length - 1]? = some (photo.getLast h) := by
  rw [List.getLast_eq_getElem]
  exact List.getElem?_eq_getElem _

/-- C8: for every photo event carrying a non-empty list of photo sizes, the only file
id passed to file-link resolution is the file id of the last entry of the list. -/
theorem photoHandler_resolves_last (instructions : String) (env : Env) (s : Session)
    (photo : List PhotoSize) (h : photo ≠ []) :
    resolvedFileIds (photoHandler instructions env s photo).effects =
      [(photo.getLast h).file_id] := by
  unfold photoHandler
  rw [getElem?_length_sub_one photo h]
  cases hl : env.getFileLink (photo.getLast h).file_id with
  | none => simp [hl, resolvedFileIds]
  | some link => simp [hl, resolvedFileIds, photoTry_resolvedFileIds]

theorem photoHandler_resolves_last_witness :
    resolvedFileIds (photoHandler "sys" (liveEnv "link" [255, 216] none none) Session.empty
        [⟨"id-64", 64, 64⟩, ⟨"id-320", 320, 320⟩, ⟨"id-800", 800, 800⟩]).effects =
      ["id-800"] :=
  photoHandler_resolves_last "sys" (liveEnv "link" [255, 216] none none) Session.empty
    [⟨"id-64", 64, 64⟩, ⟨"id-320", 320, 320⟩, ⟨"id-800", 800, 800⟩] (by simp)

/-! ## The stored session -/

theorem storedRole_user (c : String) : storedRole ⟨"user", c⟩ := Or.inl rfl

theorem storedRole_assistant (c : String) : storedRole ⟨"assistant", c⟩ := Or.inr rfl

theorem voiceTry_session_extends (instructions : String) (env : Env) (s : Session)
    (link : String) :
    ∃ ext, (voiceTry instructions env s link).session.msgs = s.msgs ++ ext ∧
      ∀ m ∈ ext, storedRole m := by
  unfold voiceTry
  cases ht : (transcribeAudio env link).result with
  | error e => exact ⟨[], by simp [ht], by simp⟩
  | ok text =>
    cases hg : (generateResponse instructions env text (s.msgs ++ [⟨"user", text⟩])).result with
    | error e =>
      exact ⟨[⟨"user", text⟩], by simp [ht, hg, Session.msgs_push],
        by simp [storedRole_user]⟩
    | ok a =>
      exact ⟨[⟨"user", text⟩, ⟨"assistant", a⟩], by simp [ht, hg, Session.msgs_push],
        by simp [storedRole_user, storedRole_assistant]⟩

theorem photoTry_session_extends (instructions : String) (env : Env) (s : Session)
    (link : String) :
    ∃ ext, (photoTry instructions env s link).session.msgs = s.msgs ++ ext ∧
      ∀ m ∈ ext, storedRole m := by
  unfold photoTry
  cases ha : (analyzeImage env link).result with
  | error e => exact ⟨[], by simp [ha], by simp⟩
  | ok d =>
    cases hg : (generateResponse instructions env ("Опиши это изображение: " ++ d)
        (s.msgs ++ [⟨"user", "Пользователь отправил изображение. Описание: " ++ d⟩])).result with
    | error e =>
      exact ⟨[⟨"user", "Пользователь отправил изображение. Описание: " ++ d⟩],
        by simp [ha, hg, Session.msgs_push], by simp [storedRole_user]⟩
    | ok a =>
      exact ⟨[⟨"user", "Пользователь отправил изображение. Описание: " ++ d⟩,
          ⟨"assistant", a⟩],
        by simp [ha, hg, Session.msgs_push], by simp [storedRole_user, storedRole_assistant]⟩

theorem textHandler_session_extends (instructions : String) (env : Env) (s : Session)
    (t : String) :
    ∃ ext, (textHandler instructions env s t).session.msgs = s.msgs ++ ext ∧
      ∀ m ∈ ext, storedRole m := by
  cases hg : (generateResponse instructions env t (s.msgs ++ [⟨"user", t⟩])).result with
  | error e =>
    exact ⟨[⟨"user", t⟩], (textHandler_failure instructions env s t e hg).2.1,
      by simp [storedRole_user]⟩
  | ok a =>
    exact ⟨[⟨"user", t⟩, ⟨"assistant", a⟩], (textHandler_success instructions env s t a hg).2.1,
      by simp [storedRole_user, storedRole_assistant]⟩

theorem handle_session_extends (instructions : String) (env : Env) (s : Session)
    (u : Update) :
    ∃ ext, (handle instructions env s u).session.msgs = s.msgs ++ ext ∧
      ∀ m ∈ ext, storedRole m := by
  cases u with
  | start => exact ⟨[], by simp [handle, startHandler], by simp⟩
  | voice fileId =>
    simp only [handle, voiceHandler]
    cases hl : env.getFileLink fileId with
    | none => exact ⟨[], by simp, by simp⟩
    | some link => exact voiceTry_session_extends instructions env s link
  | photo photo =>
    simp only [handle, photoHandler]
    cases hp : photo[photo.length - 1]? with
    | none => exact ⟨[], by simp, by simp⟩
    | some last =>
      cases hl : env.getFileLink last.file_id with
      | none => exact ⟨[], by simp [hl], by simp⟩
      | some link =>
        obtain ⟨ext, h1, h2⟩ := photoTry_session_extends instructions env s link
        exact ⟨ext, by simp [hl, h1], h2⟩
  | text t => exact textHandler_session_extends instructions env s t

theorem run_storedRole (instructions : String) (evs : List (Update × Env)) :
    ∀ s : Session, (∀ m ∈ s.msgs, storedRole m) →
      ∀ m ∈ (run instructions s evs).msgs, storedRole m := by
  induction evs with
  | nil => intro s hs; exact hs
  | cons ev rest ih =>
    intro s hs
    obtain ⟨u, env⟩ := ev
    obtain ⟨ext, hext, hrole⟩ := handle_session_extends instructions env s u
    apply ih (handle instructions env s u).session
    intro m hm
    rw [hext, List.mem_append] at hm
    exact hm.elim (hs m) (hrole m)

/-- C10: session entries are append-only: for every start, voice, photo or text event
and every outcome of its API calls, the session's message list before the event is a
prefix of the session's message list after the event. -/
theorem handle_session_append_only (instructions : String) (env : Env) (s : Session)
    (u : Update) :
    s.msgs <+: (handle instructions env s u).session.msgs := by
  obtain ⟨ext, hext, _⟩ := handle_session_extends instructions env s u
  exact ⟨ext, hext.symm⟩

/-- C5: the system instruction is never stored in the session: in every session
reachable from the empty session by any sequence of start, voice, photo and text
events, whatever their API calls answer, every stored message has role `user` or
`assistant` and none has role `system`; the system message is the head of the request
`generateResponse` builds for each call. -/
theorem run_never_stores_system (instructions : String) (evs : List (Update × Env)) :
    (∀ m ∈ (run instructions Session.empty evs).msgs,
        (m.role = "user" ∨ m.role = "assistant") ∧ m.role ≠ "system") ∧
      ∀ (env : Env) (prompt : String) (h : List Message),
        (chatPosts (generateResponse instructions env prompt h).effects).map
          (fun p => p.messages.head?) = [some ⟨"system", instructions⟩] := by
  constructor
  · intro m hm
    have hrole : storedRole m :=
      run_storedRole instructions evs Session.empty (by simp [Session.empty, Session.msgs]) m hm
    refine ⟨hrole, ?_⟩
    rcases hrole with h | h <;> rw [h] <;> decide
  · intro env prompt h
    rw [generateResponse_chatPosts]
    simp [chatPayload, buildMessages]

end BotEmmy
